import Mathlib

/-!
# Verification of the patent categorizer cache and fetch/classify pipeline

Shallow embedding of `patent_categorizer_ui.py`: the sqlite cache table
`patent_cache(patent_number PRIMARY KEY, data_json, gpt_json)`, the
metadata fetcher `query_patent`, the LLM wrapper `call_together_llama3`,
the classifier `categorize_with_llm`, and the result-rendering branch of
the Streamlit block.

JSON values are modelled by a mutual inductive `Json`; `json.dumps` and
`json.loads` are modelled by an executable printer and a fuel-indexed
parser over character lists, with a proved roundtrip theorem.  Python
exceptions are modelled by `PyExc`; an `Except PyExc` result of `.error e`
means the Python code raised `e` past the function boundary.
-/

set_option maxRecDepth 16384

mutual

inductive Json where
  | null : Json
  | str : String → Json
  | arr : JsonList → Json
  | obj : JsonObj → Json
  deriving DecidableEq, Repr

inductive JsonList where
  | nil : JsonList
  | cons : Json → JsonList → JsonList
  deriving DecidableEq, Repr

inductive JsonObj where
  | nil : JsonObj
  | cons : String → Json → JsonObj → JsonObj
  deriving DecidableEq, Repr

end

/-- Escape a string body for serialization: quote and backslash get a
backslash escape, as `json.dumps` does. -/
def escChars : List Char → List Char
  | [] => []
  | c :: cs =>
    if c = '"' ∨ c = '\\' then '\\' :: c :: escChars cs else c :: escChars cs

-- Serialize a JSON value to characters (model of `json.dumps`; no
-- whitespace, separators `,` and `:`).
mutual

def Json.dump : Json → List Char
  | .null => ['n', 'u', 'l', 'l']
  | .str s => '"' :: escChars s.data ++ ['"']
  | .arr .nil => ['[', ']']
  | .arr xs => '[' :: xs.dumpElems ++ [']']
  | .obj .nil => ['\x7b', '\x7d']
  | .obj kvs => '\x7b' :: kvs.dumpPairs ++ ['\x7d']

def JsonList.dumpElems : JsonList → List Char
  | .nil => []
  | .cons x .nil => x.dump
  | .cons x xs => x.dump ++ ',' :: xs.dumpElems

def JsonObj.dumpPairs : JsonObj → List Char
  | .nil => []
  | .cons k v .nil => '"' :: escChars k.data ++ '"' :: ':' :: v.dump
  | .cons k v kvs =>
    '"' :: escChars k.data ++ '"' :: ':' :: v.dump ++ ',' :: kvs.dumpPairs

end

def dumps (j : Json) : String := ⟨j.dump⟩

-- Parse the body of a string literal after the opening quote: everything
-- up to the next unescaped quote, decoding the two escape forms the
-- printer emits (any other backslash escape is rejected).
mutual

def parseStrBody : List Char → Option (String × List Char)
  | [] => none
  | c :: rest =>
    if c = '"' then some ("", rest)
    else if c = '\\' then parseEsc rest
    else (parseStrBody rest).map fun p => (⟨c :: p.1.data⟩, p.2)

def parseEsc : List Char → Option (String × List Char)
  | [] => none
  | d :: rest2 =>
    if d = '"' ∨ d = '\\' then
      (parseStrBody rest2).map fun p => (⟨d :: p.1.data⟩, p.2)
    else none

end

mutual

def parseVal : Nat → List Char → Option (Json × List Char)
  | 0, _ => none
  | _ + 1, [] => none
  | fuel + 1, c :: rest =>
    if c = 'n' then
      match rest with
      | 'u' :: 'l' :: 'l' :: r => some (.null, r)
      | _ => none
    else if c = '"' then
      (parseStrBody rest).map fun p => (.str p.1, p.2)
    else if c = '[' then
      match rest with
      | ']' :: r => some (.arr .nil, r)
      | _ =>
        (parseElems fuel rest).bind fun p =>
          match p.2 with
          | ']' :: r => some (.arr p.1, r)
          | _ => none
    else if c = '\x7b' then
      match rest with
      | '\x7d' :: r => some (.obj .nil, r)
      | _ =>
        (parsePairs fuel rest).bind fun p =>
          match p.2 with
          | '\x7d' :: r => some (.obj p.1, r)
          | _ => none
    else none

def parseElems : Nat → List Char → Option (JsonList × List Char)
  | 0, _ => none
  | fuel + 1, cs =>
    (parseVal fuel cs).bind fun p =>
      match p.2 with
      | ',' :: r2 => (parseElems fuel r2).map fun q => (.cons p.1 q.1, q.2)
      | _ => some (.cons p.1 .nil, p.2)

def parsePairs : Nat → List Char → Option (JsonObj × List Char)
  | 0, _ => none
  | fuel + 1, cs =>
    match cs with
    | '"' :: rest =>
      (parseStrBody rest).bind fun kp =>
        match kp.2 with
        | ':' :: r2 =>
          (parseVal fuel r2).bind fun vp =>
            match vp.2 with
            | ',' :: r4 => (parsePairs fuel r4).map fun q => (.cons kp.1 vp.1 q.1, q.2)
            | _ => some (.cons kp.1 vp.1 .nil, vp.2)
        | _ => none
    | _ => none

end

-- Fuel measure: an upper bound on the recursion depth the parser needs.
mutual

def Json.fsize : Json → Nat
  | .null => 1
  | .str _ => 1
  | .arr xs => xs.fsizeElems + 1
  | .obj kvs => kvs.fsizePairs + 1

def JsonList.fsizeElems : JsonList → Nat
  | .nil => 1
  | .cons x xs => x.fsize + xs.fsizeElems

def JsonObj.fsizePairs : JsonObj → Nat
  | .nil => 1
  | .cons _ v kvs => v.fsize + kvs.fsizePairs

end

theorem fsize_pos (j : Json) : 1 ≤ j.fsize := by
  cases j <;> simp [Json.fsize]

theorem fsizeElems_pos (xs : JsonList) : 1 ≤ xs.fsizeElems := by
  cases xs with
  | nil => simp [JsonList.fsizeElems]
  | cons x xs => have := fsize_pos x; simp [JsonList.fsizeElems]; omega

theorem fsizePairs_pos (kvs : JsonObj) : 1 ≤ kvs.fsizePairs := by
  cases kvs with
  | nil => simp [JsonObj.fsizePairs]
  | cons k v kvs => have := fsize_pos v; simp [JsonObj.fsizePairs]; omega

theorem parseStrBody_dump (l : List Char) (rest : List Char) :
    parseStrBody (escChars l ++ '"' :: rest) = some (⟨l⟩, rest) := by
  induction l with
  | nil => rfl
  | cons c l ih =>
    by_cases hc : c = '"' ∨ c = '\\'
    · have h1 : ('\\' : Char) ≠ '"' := by decide
      simp only [escChars, if_pos hc, List.cons_append, parseStrBody, if_neg h1,
        if_pos rfl, parseEsc, if_pos hc, List.append_eq, ih, Option.map_some',
        if_true]
    · have h1 : c ≠ '"' := fun h => hc (Or.inl h)
      have h2 : c ≠ '\\' := fun h => hc (Or.inr h)
      simp only [escChars, if_neg hc, List.cons_append, parseStrBody, if_neg h1,
        if_neg h2, List.append_eq, ih, Option.map_some']

theorem dump_head (j : Json) :
    ∃ c cs, j.dump = c :: cs ∧ (c = 'n' ∨ c = '"' ∨ c = '[' ∨ c = '\x7b') := by
  cases j with
  | null => exact ⟨'n', _, rfl, Or.inl rfl⟩
  | str s => exact ⟨'"', _, rfl, Or.inr (Or.inl rfl)⟩
  | arr xs =>
    cases xs with
    | nil => exact ⟨'[', _, rfl, Or.inr (Or.inr (Or.inl rfl))⟩
    | cons x xs => exact ⟨'[', _, rfl, Or.inr (Or.inr (Or.inl rfl))⟩
  | obj kvs =>
    cases kvs with
    | nil => exact ⟨'\x7b', _, rfl, Or.inr (Or.inr (Or.inr rfl))⟩
    | cons k v kvs => exact ⟨'\x7b', _, rfl, Or.inr (Or.inr (Or.inr rfl))⟩

theorem dumpElems_cons_head (x : Json) (xs : JsonList) :
    ∃ c cs, (JsonList.cons x xs).dumpElems = c :: cs ∧
      (c = 'n' ∨ c = '"' ∨ c = '[' ∨ c = '\x7b') := by
  obtain ⟨c, cs, hd, hc⟩ := dump_head x
  cases xs with
  | nil => exact ⟨c, cs, by simp [JsonList.dumpElems, hd], hc⟩
  | cons y ys =>
    exact ⟨c, cs ++ ',' :: (JsonList.cons y ys).dumpElems,
      by simp [JsonList.dumpElems, hd], hc⟩

mutual

theorem parseVal_dump (j : Json) (fuel : Nat) (rest : List Char)
    (hf : j.fsize ≤ fuel) :
    parseVal fuel (j.dump ++ rest) = some (j, rest) := by
  obtain ⟨f, rfl⟩ : ∃ f, fuel = f + 1 := ⟨fuel - 1, by have := fsize_pos j; omega⟩
  cases j with
  | null => rfl
  | str s =>
    have hshape : (Json.str s).dump ++ rest
        = '"' :: (escChars s.data ++ '"' :: rest) := by
      simp [Json.dump]
    rw [hshape]
    simp only [parseVal, Char.reduceEq, reduceIte]
    rw [parseStrBody_dump s.data rest]
    rfl
  | arr xs =>
    cases xs with
    | nil => rfl
    | cons x xs =>
      have hf2 : (JsonList.cons x xs).fsizeElems ≤ f := by
        simp only [Json.fsize] at hf; omega
      obtain ⟨c, cs, hd, hc⟩ := dumpElems_cons_head x xs
      have hcne : c ≠ ']' := by rcases hc with rfl | rfl | rfl | rfl <;> decide
      have hshape : (Json.arr (JsonList.cons x xs)).dump ++ rest
          = '[' :: ((JsonList.cons x xs).dumpElems ++ ']' :: rest) := by
        simp [Json.dump]
      rw [hshape]
      simp only [parseVal, Char.reduceEq, reduceIte]
      split
      · rename_i r h
        rw [hd, List.cons_append] at h
        injection h with h1 h2
        exact absurd h1 hcne
      · rw [parseElems_dump x xs f rest hf2]
        rfl
  | obj kvs =>
    cases kvs with
    | nil => rfl
    | cons k v kvs =>
      have hf2 : (JsonObj.cons k v kvs).fsizePairs ≤ f := by
        simp only [Json.fsize] at hf; omega
      have hshape : (Json.obj (JsonObj.cons k v kvs)).dump ++ rest
          = '\x7b' :: ((JsonObj.cons k v kvs).dumpPairs ++ '\x7d' :: rest) := by
        simp [Json.dump]
      have hd : ∃ ds, (JsonObj.cons k v kvs).dumpPairs = '"' :: ds := by
        cases kvs <;> exact ⟨_, rfl⟩
      obtain ⟨ds, hd⟩ := hd
      rw [hshape]
      simp only [parseVal, Char.reduceEq, reduceIte]
      split
      · rename_i r h
        rw [hd, List.cons_append] at h
        injection h with h1 h2
        exact absurd h1 (by decide)
      · rw [parsePairs_dump k v kvs f rest hf2]
        rfl
termination_by sizeOf j

theorem parseElems_dump (x : Json) (xs : JsonList) (fuel : Nat) (rest : List Char)
    (hf : (JsonList.cons x xs).fsizeElems ≤ fuel) :
    parseElems fuel ((JsonList.cons x xs).dumpElems ++ ']' :: rest)
      = some (JsonList.cons x xs, ']' :: rest) := by
  obtain ⟨f, rfl⟩ : ∃ f, fuel = f + 1 := by
    refine ⟨fuel - 1, ?_⟩
    have h1 := fsize_pos x
    simp only [JsonList.fsizeElems] at hf
    have h2 := fsizeElems_pos xs
    omega
  cases xs with
  | nil =>
    have hfx : x.fsize ≤ f := by
      simp only [JsonList.fsizeElems] at hf; omega
    have hshape : (JsonList.cons x JsonList.nil).dumpElems ++ ']' :: rest
        = x.dump ++ ']' :: rest := by
      simp [JsonList.dumpElems]
    rw [hshape]
    simp only [parseElems]
    rw [parseVal_dump x f (']' :: rest) hfx]
    rfl
  | cons y ys =>
    have hfx : x.fsize ≤ f := by
      have h2 := fsizeElems_pos (JsonList.cons y ys)
      simp only [JsonList.fsizeElems] at hf h2 ⊢; omega
    have hfr : (JsonList.cons y ys).fsizeElems ≤ f := by
      have h1 := fsize_pos x
      simp only [JsonList.fsizeElems] at hf ⊢; omega
    have hshape : (JsonList.cons x (JsonList.cons y ys)).dumpElems ++ ']' :: rest
        = x.dump ++ ',' :: ((JsonList.cons y ys).dumpElems ++ ']' :: rest) := by
      simp [JsonList.dumpElems]
    rw [hshape]
    simp only [parseElems]
    rw [parseVal_dump x f (',' :: ((JsonList.cons y ys).dumpElems ++ ']' :: rest)) hfx]
    simp only [Option.some_bind]
    rw [parseElems_dump y ys f rest hfr]
    rfl
termination_by 1 + sizeOf x + sizeOf xs

theorem parsePairs_dump (k : String) (v : Json) (kvs : JsonObj) (fuel : Nat)
    (rest : List Char)
    (hf : (JsonObj.cons k v kvs).fsizePairs ≤ fuel) :
    parsePairs fuel ((JsonObj.cons k v kvs).dumpPairs ++ '\x7d' :: rest)
      = some (JsonObj.cons k v kvs, '\x7d' :: rest) := by
  obtain ⟨f, rfl⟩ : ∃ f, fuel = f + 1 := by
    refine ⟨fuel - 1, ?_⟩
    have h1 := fsize_pos v
    have h2 := fsizePairs_pos kvs
    simp only [JsonObj.fsizePairs] at hf
    omega
  cases kvs with
  | nil =>
    have hfv : v.fsize ≤ f := by
      simp only [JsonObj.fsizePairs] at hf; omega
    have hshape : (JsonObj.cons k v JsonObj.nil).dumpPairs ++ '\x7d' :: rest
        = '"' :: (escChars k.data ++ '"' :: (':' :: (v.dump ++ '\x7d' :: rest))) := by
      simp [JsonObj.dumpPairs]
    rw [hshape]
    simp only [parsePairs]
    rw [parseStrBody_dump k.data (':' :: (v.dump ++ '\x7d' :: rest))]
    simp only [Option.some_bind]
    rw [parseVal_dump v f ('\x7d' :: rest) hfv]
    rfl
  | cons k2 v2 kvs2 =>
    have hfv : v.fsize ≤ f := by
      have h2 := fsizePairs_pos (JsonObj.cons k2 v2 kvs2)
      simp only [JsonObj.fsizePairs] at hf h2 ⊢; omega
    have hfr : (JsonObj.cons k2 v2 kvs2).fsizePairs ≤ f := by
      have h1 := fsize_pos v
      simp only [JsonObj.fsizePairs] at hf ⊢; omega
    have hshape : (JsonObj.cons k v (JsonObj.cons k2 v2 kvs2)).dumpPairs ++ '\x7d' :: rest
        = '"' :: (escChars k.data ++ '"' :: (':' :: (v.dump
            ++ ',' :: ((JsonObj.cons k2 v2 kvs2).dumpPairs ++ '\x7d' :: rest)))) := by
      simp [JsonObj.dumpPairs]
    rw [hshape]
    simp only [parsePairs]
    rw [parseStrBody_dump k.data _]
    simp only [Option.some_bind]
    rw [parseVal_dump v f _ hfv]
    simp only [Option.some_bind]
    rw [parsePairs_dump k2 v2 kvs2 f rest hfr]
    rfl
termination_by 1 + sizeOf k + sizeOf v + sizeOf kvs

end

mutual

theorem fsize_le_dump (j : Json) : j.fsize ≤ j.dump.length := by
  cases j with
  | null => simp [Json.fsize, Json.dump]
  | str s => simp [Json.fsize, Json.dump]
  | arr xs =>
    cases xs with
    | nil => simp [Json.fsize, Json.dump, JsonList.fsizeElems]
    | cons x xs =>
      have h := fsizeElems_le_dump x xs
      simp only [Json.fsize, Json.dump, List.length_cons, List.length_append,
        List.length_singleton]
      omega
  | obj kvs =>
    cases kvs with
    | nil => simp [Json.fsize, Json.dump, JsonObj.fsizePairs]
    | cons k v kvs =>
      have h := fsizePairs_le_dump k v kvs
      simp only [Json.fsize, Json.dump, List.length_cons, List.length_append,
        List.length_singleton]
      omega
termination_by sizeOf j

theorem fsizeElems_le_dump (x : Json) (xs : JsonList) :
    (JsonList.cons x xs).fsizeElems ≤ (JsonList.cons x xs).dumpElems.length + 1 := by
  cases xs with
  | nil =>
    have h := fsize_le_dump x
    simp only [JsonList.fsizeElems, JsonList.fsizeElems.eq_1, JsonList.dumpElems]
    omega
  | cons y ys =>
    have h1 := fsize_le_dump x
    have h2 := fsizeElems_le_dump y ys
    simp only [JsonList.fsizeElems, JsonList.dumpElems, List.length_append,
      List.length_cons] at h2 ⊢
    omega
termination_by 1 + sizeOf x + sizeOf xs

theorem fsizePairs_le_dump (k : String) (v : Json) (kvs : JsonObj) :
    (JsonObj.cons k v kvs).fsizePairs ≤ (JsonObj.cons k v kvs).dumpPairs.length + 1 := by
  cases kvs with
  | nil =>
    have h := fsize_le_dump v
    simp only [JsonObj.fsizePairs, JsonObj.fsizePairs.eq_1, JsonObj.dumpPairs,
      List.length_cons, List.length_append]
    omega
  | cons k2 v2 kvs2 =>
    have h1 := fsize_le_dump v
    have h2 := fsizePairs_le_dump k2 v2 kvs2
    simp only [JsonObj.fsizePairs, JsonObj.dumpPairs, List.length_append,
      List.length_cons] at h2 ⊢
    omega
termination_by 1 + sizeOf k + sizeOf v + sizeOf kvs

end

/-- Parse a whole string as one JSON document: succeeds only when the
entire input is exactly one JSON value (model of `json.loads` on a str). -/
def parseJson (s : String) : Option Json :=
  match parseVal (s.length + 1) s.data with
  | some (j, []) => some j
  | _ => none

theorem parseJson_dumps (j : Json) : parseJson (dumps j) = some j := by
  have h := parseVal_dump j ((dumps j).length + 1) []
    (le_trans (fsize_le_dump j) (Nat.le_succ _))
  rw [List.append_nil] at h
  unfold parseJson
  rw [show (dumps j).data = j.dump from rfl, h]

/-- Python exceptions that can escape the modelled functions. -/
inductive PyExc where
  | typeError (msg : String)
  | jsonDecodeError (msg : String)
  | keyError (key : String)
  | indexError (msg : String)
  | attributeError (msg : String)
  | apiError (msg : String)
  | requestError (msg : String)
  | interfaceError (msg : String)
  deriving DecidableEq, Repr

/-- Python `str(e)`: the description carried by the exception. -/
def PyExc.str : PyExc → String
  | .typeError m => m
  | .jsonDecodeError m => m
  | .keyError k => k
  | .indexError m => m
  | .attributeError m => m
  | .apiError m => m
  | .requestError m => m
  | .interfaceError m => m

/-- Parse a response/string body as JSON, raising `json.JSONDecodeError`
on failure (model of `res.json()` and of `json.loads` on a str). -/
def loadsStr (s : String) : Except PyExc Json :=
  match parseJson s with
  | some j => .ok j
  | none => .error (.jsonDecodeError "Expecting value: line 1 column 1 (char 0)")

/-- `json.loads` applied to an sqlite column value (`None` for SQL NULL):
`json.loads(None)` raises `TypeError`. -/
def json_loads_col (v : Option String) : Except PyExc Json :=
  match v with
  | none =>
    .error (.typeError "the JSON object must be str, bytes or bytearray, not NoneType")
  | some s => loadsStr s

/-- `json.loads` applied to an arbitrary Python value (the LLM response
content): only a str can be parsed. -/
def json_loads_val (v : Json) : Except PyExc Json :=
  match v with
  | .str s => loadsStr s
  | _ => .error (.typeError "the JSON object must be str, bytes or bytearray")

/-- Lookup in a Python dict built from parsed JSON pairs: a later duplicate
key shadows an earlier one. -/
def pyLookup : JsonObj → String → Option Json
  | .nil, _ => none
  | .cons k2 v rest, k =>
    match pyLookup rest k with
    | some v2 => some v2
    | none => if k2 = k then some v else none

/-- Python `x[key]` for a string key on a parsed JSON value. -/
def pyIndexKey (j : Json) (k : String) : Except PyExc Json :=
  match j with
  | .obj kvs =>
    match pyLookup kvs k with
    | some v => .ok v
    | none => .error (.keyError k)
  | .arr _ => .error (.typeError "list indices must be integers or slices, not str")
  | .str _ => .error (.typeError "string indices must be integers")
  | .null => .error (.typeError "NoneType object is not subscriptable")

/-- Python `x[0]` on a parsed JSON value. -/
def pyIndex0 (j : Json) : Except PyExc Json :=
  match j with
  | .arr (.cons x _) => .ok x
  | .arr .nil => .error (.indexError "list index out of range")
  | .obj _ => .error (.keyError "0")
  | .str s =>
    match s.data with
    | c :: _ => .ok (.str ⟨[c]⟩)
    | [] => .error (.indexError "string index out of range")
  | .null => .error (.typeError "NoneType object is not subscriptable")

/-- Python `k in list` for a str `k`: does the list contain that string? -/
def JsonList.hasStr : JsonList → String → Bool
  | .nil, _ => false
  | .cons (.str s) rest, k => s = k || rest.hasStr k
  | .cons _ rest, k => rest.hasStr k

/-- Is the first list an initial segment of the second? -/
def leadsWith : List Char → List Char → Bool
  | [], _ => true
  | _ :: _, [] => false
  | a :: as, b :: bs => a = b && leadsWith as bs

/-- Substring test on character lists (Python `needle in haystack`). -/
def hasSub : List Char → List Char → Bool
  | needle, [] => needle.isEmpty
  | needle, c :: rest => leadsWith needle (c :: rest) || hasSub needle rest

/-- Python `k in x` for a str `k` on a parsed JSON value. -/
def pyContains (k : String) (j : Json) : Except PyExc Bool :=
  match j with
  | .obj kvs => .ok (pyLookup kvs k).isSome
  | .arr xs => .ok (xs.hasStr k)
  | .str s => .ok (hasSub k.data s.data)
  | .null => .error (.typeError "argument of type NoneType is not iterable")

/-- Python `d.get(key, default)`; only dicts have `.get`. -/
def pyGet (j : Json) (k : String) (dflt : Json) : Except PyExc Json :=
  match j with
  | .obj kvs => .ok ((pyLookup kvs k).getD dflt)
  | _ => .error (.attributeError "object has no attribute get")

/-- Python truthiness of a parsed JSON value. -/
def pyTruthy : Json → Bool
  | .null => false
  | .str s => !s.data.isEmpty
  | .arr .nil => false
  | .arr (.cons _ _) => true
  | .obj .nil => false
  | .obj (.cons _ _ _) => true

/-- Python `str(x)` as used in f-strings; containers are rendered via the
JSON serialization (an approximation of `repr`, unused by any claim). -/
def pyStr : Json → String
  | .null => "None"
  | .str s => s
  | .arr xs => dumps (.arr xs)
  | .obj kvs => dumps (.obj kvs)

/-- Decidable equality of `Except` results, for concrete evaluations. -/
def exceptDecEq {ε α : Type} [DecidableEq ε] [DecidableEq α] :
    (a b : Except ε α) → Decidable (a = b)
  | .ok a, .ok b =>
    if h : a = b then .isTrue (by rw [h]) else .isFalse (by simp [h])
  | .ok _, .error _ => .isFalse (by simp)
  | .error _, .ok _ => .isFalse (by simp)
  | .error e, .error f =>
    if h : e = f then .isTrue (by rw [h]) else .isFalse (by simp [h])

instance {ε α : Type} [DecidableEq ε] [DecidableEq α] : DecidableEq (Except ε α) :=
  exceptDecEq

/-- One row of `patent_cache`; `none` models SQL NULL. -/
structure Row where
  patent_number : String
  data_json : Option String
  gpt_json : Option String
  deriving DecidableEq, Repr

/-- The cache table: a list of rows.  The primary key keeps at most one row
per patent number through the modelled write operations. -/
abbrev DB := List Row

/-- Binding a Python value as an SQL parameter: str and None are bindable;
the containers this program could pass would raise sqlite3 errors. -/
def bindParam (p : Json) : Except PyExc (Option String) :=
  match p with
  | .str s => .ok (some s)
  | .null => .ok none
  | _ => .error (.interfaceError "Error binding parameter 0")

/-- Does a row satisfy `patent_number = ?` for the bound parameter?  A NULL
parameter compares unequal to everything in SQL. -/
def rowMatches (p : Option String) (r : Row) : Bool :=
  match p with
  | some s => r.patent_number = s
  | none => false

/-- `SELECT data_json FROM patent_cache WHERE patent_number=?` followed by
`fetchone()`: `none` when no row matched, `some v` for the 1-tuple `(v,)`
(truthy even when the column value `v` is NULL). -/
def selectDataJson (db : DB) (pn : String) : Option (Option String) :=
  (db.find? (rowMatches (some pn))).map Row.data_json

/-- `SELECT gpt_json FROM patent_cache WHERE patent_number=?` followed by
`fetchone()`, with an already-bound parameter. -/
def selectGptJson (db : DB) (p : Option String) : Option (Option String) :=
  (db.find? (rowMatches p)).map Row.gpt_json

/-- `REPLACE INTO patent_cache (patent_number, data_json) VALUES (?, ?)`:
SQLite REPLACE deletes any conflicting row and inserts a fresh one; the
unnamed `gpt_json` column of the fresh row is NULL. -/
def replaceIntoCache (db : DB) (pn : String) (d : String) : DB :=
  (db.filter fun r => !rowMatches (some pn) r) ++ [⟨pn, some d, none⟩]

/-- `UPDATE patent_cache SET gpt_json=? WHERE patent_number=?`: updates the
matching rows only; inserts nothing when no row matches. -/
def updateGptJson (db : DB) (p : Option String) (g : String) : DB :=
  db.map fun r => if rowMatches p r then { r with gpt_json := some g } else r

/-- Outcome of one outbound HTTP request: a response (status code and body
text), or an exception raised by the requests library itself. -/
inductive NetOutcome where
  | resp (status : Nat) (body : String)
  | exn (e : PyExc)
  deriving DecidableEq, Repr

/-- Result of `query_patent`: final cache state, whether the outbound API
call was issued, and the returned value — `.ok (some data)` for metadata,
`.ok none` for Python `None` (not found), `.error e` for an exception that
escaped the function. -/
structure FetchResult where
  db : DB
  apiCalled : Bool
  res : Except PyExc (Option Json)
  deriving DecidableEq, Repr

/-- `query_patent(patent_number)` (source lines 28–51), with the cache
state explicit and the `requests.get` outcome supplied as an oracle. -/
def query_patent (net : NetOutcome) (db : DB) (patent_number : String) : FetchResult :=
  match selectDataJson db patent_number with
  | some v =>
    -- `if row: return json.loads(row[0])` — the fetched 1-tuple is truthy
    -- even when data_json is NULL, and a loads failure propagates.
    { db := db, apiCalled := false, res := (json_loads_col v).map some }
  | none =>
    match net with
    | .exn e => { db := db, apiCalled := true, res := .error e }
    | .resp status body =>
      if status = 200 then
        match loadsStr body with
        | .error e => { db := db, apiCalled := true, res := .error e }
        | .ok data =>
          match pyContains "patents" data with
          | .error e => { db := db, apiCalled := true, res := .error e }
          | .ok b =>
            if b then
              match pyIndexKey data "patents" with
              | .error e => { db := db, apiCalled := true, res := .error e }
              | .ok pts =>
                if pyTruthy pts then
                  { db := replaceIntoCache db patent_number (dumps data),
                    apiCalled := true, res := .ok (some data) }
                else { db := db, apiCalled := true, res := .ok none }
            else { db := db, apiCalled := true, res := .ok none }
      else { db := db, apiCalled := true, res := .ok none }

/-- `response.json()["choices"][0]["message"]["content"]`
(source line 70). -/
def extractContent (body : String) : Except PyExc Json := do
  let j ← loadsStr body
  let choices ← pyIndexKey j "choices"
  let c0 ← pyIndex0 choices
  let msg ← pyIndexKey c0 "message"
  pyIndexKey msg "content"

/-- `call_together_llama3(prompt)` (source lines 53–72): on HTTP 200 return
the response's `choices[0]["message"]["content"]`; otherwise raise an
Exception carrying the status code and the body text.  The POST outcome is
the oracle `net`; the prompt does not influence the modelled outcome. -/
def call_together_llama3 (net : NetOutcome) (prompt : String) : Except PyExc Json :=
  match net with
  | .exn e => .error e
  | .resp status body =>
    if status = 200 then extractContent body
    else
      .error (.apiError ("Together API Error: " ++ toString status ++ ", " ++ body))

/-- The f-string prompt template of `categorize_with_llm`
(source lines 78–91). -/
def promptFor (title abstract : Json) : String :=
  "\nYou are a patent analyst. Given the patent title and abstract, categorize the patent using CPC, IPC, and USPC codes if applicable. \nProvide also high-level technology categories (like AI, biotech, mechanical, etc). Include a paragraph of reasoning.\n\nTitle: "
    ++ pyStr title
    ++ "\nAbstract: "
    ++ pyStr abstract
    ++ "\n\nReturn only JSON with:\n- technology_areas\n- ipc_predicted\n- cpc_predicted\n- uspc_predicted\n- reasoning\n"

/-- Result of `categorize_with_llm`: final cache state, whether the LLM
call was attempted, and the returned value — `.ok j` for a returned dict
(a classification or the `{"error": ...}` failure dict), `.error e` for an
exception that escaped the function. -/
structure ClassifyResult where
  db : DB
  llmCalled : Bool
  res : Except PyExc Json
  deriving DecidableEq, Repr

/-- `{"error": str(e)}` (source line 106). -/
def errorDict (e : PyExc) : Json := .obj (.cons "error" (.str e.str) .nil)

/-- `patent_data['patents'][0]` (source line 75; outside the try block). -/
def firstPatent (patent_data : Json) : Except PyExc Json := do
  let pts ← pyIndexKey patent_data "patents"
  pyIndex0 pts

/-- Source lines 76–78 and 94: the `.get` lookups, the prompt rendering and
the binding of `patent.get("patent_number")` as the SQL parameter (all
outside the try block). -/
def patentFields (patent : Json) : Except PyExc (String × Option String) := do
  let title ← pyGet patent "patent_title" (.str "")
  let abstract ← pyGet patent "abstract" (.str "")
  let pn ← pyGet patent "patent_number" .null
  let p ← bindParam pn
  pure (promptFor title abstract, p)

/-- The body of the try block (source lines 99–100): call the LLM once and
parse its textual response strictly as JSON. -/
def llmFetchParse (net : NetOutcome) (prompt : String) : Except PyExc Json := do
  let content ← call_together_llama3 net prompt
  json_loads_val content

/-- `categorize_with_llm(patent_data)` (source lines 74–106).  The lookup
of `patents[0]`, the `.get` calls, the parameter binding and the gpt_json
cache probe happen before the `try:` block, so their exceptions escape. -/
def categorize_with_llm (net : NetOutcome) (db : DB) (patent_data : Json) :
    ClassifyResult :=
  match firstPatent patent_data with
  | .error e => { db := db, llmCalled := false, res := .error e }
  | .ok patent =>
    match patentFields patent with
    | .error e => { db := db, llmCalled := false, res := .error e }
    | .ok (prompt, p) =>
      match selectGptJson db p with
      | some v =>
        -- `if row: return json.loads(row[0])` — outside the try block, and
        -- the fetched 1-tuple is truthy even when gpt_json is NULL.
        { db := db, llmCalled := false, res := json_loads_col v }
      | none =>
        match llmFetchParse net prompt with
        | .ok result =>
          { db := updateGptJson db p (dumps result), llmCalled := true,
            res := .ok result }
        | .error e => { db := db, llmCalled := true, res := .ok (errorDict e) }

/-- What the result block of the Streamlit UI displays for `gpt_result`
(source lines 136–142). -/
inductive Rendered where
  | errorBanner (err : Json)
  | categorization (result : Json) (reasoning : Json)
  deriving DecidableEq, Repr

/-- The `if "error" in gpt_result` branch of the UI block
(source lines 136–142). -/
def render_gpt_result (gpt_result : Json) : Except PyExc Rendered := do
  let b ← pyContains "error" gpt_result
  if b then
    let v ← pyIndexKey gpt_result "error"
    pure (.errorBanner v)
  else
    let r ← pyGet gpt_result "reasoning" (.str "No explanation returned.")
    pure (.categorization gpt_result r)

theorem find?_filter_out (db : DB) (pn : String) :
    List.find? (rowMatches (some pn)) (db.filter fun r => !rowMatches (some pn) r)
      = none := by
  apply List.find?_eq_none.mpr
  intro x hx
  have h := (List.mem_filter.mp hx).2
  simp only [Bool.not_eq_true'] at h
  simp [h]

theorem find?_append_of_none {p : Row → Bool} (l1 l2 : DB) (h : l1.find? p = none) :
    (l1 ++ l2).find? p = l2.find? p := by
  induction l1 with
  | nil => rfl
  | cons r rest ih =>
    by_cases hr : p r
    · simp [List.find?_cons_of_pos _ hr] at h
    · rw [List.find?_cons_of_neg _ hr] at h
      simp only [List.cons_append]
      rw [List.find?_cons_of_neg _ hr]
      exact ih h

theorem replace_find_self (db : DB) (pn d : String) :
    List.find? (rowMatches (some pn)) (replaceIntoCache db pn d)
      = some ⟨pn, some d, none⟩ := by
  unfold replaceIntoCache
  rw [find?_append_of_none _ _ (find?_filter_out db pn)]
  simp [List.find?, rowMatches]

theorem replace_find_other (db : DB) (pn d q : String) (h : q ≠ pn) :
    List.find? (rowMatches (some q)) (replaceIntoCache db pn d)
      = List.find? (rowMatches (some q)) db := by
  unfold replaceIntoCache
  have hlast : List.find? (rowMatches (some q)) [(⟨pn, some d, none⟩ : Row)] = none := by
    have hm : rowMatches (some q) (⟨pn, some d, none⟩ : Row) = false := by
      simp only [rowMatches, decide_eq_false_iff_not]
      exact fun hqe => h hqe.symm
    simp [List.find?, hm]
  induction db with
  | nil => simpa using hlast
  | cons r rest ih =>
    by_cases hq : rowMatches (some q) r
    · have hpn : rowMatches (some pn) r = false := by
        simp only [rowMatches, decide_eq_true_eq] at hq
        simp only [rowMatches, decide_eq_false_iff_not]
        rw [hq]
        exact h
      simp only [List.filter_cons, hpn, Bool.not_false, if_true, List.cons_append]
      rw [List.find?_cons_of_pos _ hq, List.find?_cons_of_pos _ hq]
    · by_cases hpn : rowMatches (some pn) r
      · simp only [List.filter_cons, hpn, Bool.not_true, if_false]
        rw [List.find?_cons_of_neg _ hq]
        exact ih
      · simp only [List.filter_cons, Bool.not_eq_true', hpn, Bool.not_false, if_true,
          List.cons_append]
        rw [List.find?_cons_of_neg _ hq, List.find?_cons_of_neg _ hq]
        exact ih

/-- A sample patent record as returned by the search API. -/
def samplePatent : Json :=
  .obj (.cons "patent_number" (.str "11234567")
    (.cons "patent_title" (.str "Widget Fastener")
      (.cons "abstract" (.str "A fastening widget") .nil)))

/-- A sample search-API response body with one matching record. -/
def sampleData : Json :=
  .obj (.cons "patents" (.arr (.cons samplePatent .nil)) .nil)

/-- A sample well-formed classification result with the five fields. -/
def goodGpt : Json :=
  .obj (.cons "technology_areas" (.arr (.cons (.str "Mechanical") .nil))
    (.cons "ipc_predicted" (.str "F16B")
      (.cons "cpc_predicted" (.str "F16B35/00")
        (.cons "uspc_predicted" (.str "411")
          (.cons "reasoning" (.str "fasteners") .nil)))))

/-- A chat-completions response whose message content is `content`. -/
def llmRespWith (content : String) : Json :=
  .obj (.cons "choices"
    (.arr (.cons
      (.obj (.cons "message" (.obj (.cons "content" (.str content) .nil)) .nil))
      .nil))
    .nil)

/-- An LLM oracle answering HTTP 200 with `content` as the message content. -/
def llmNetWith (content : String) : NetOutcome :=
  .resp 200 (dumps (llmRespWith content))

/-- An LLM oracle whose answer parses to the sample classification. -/
def goodNet : NetOutcome := llmNetWith (dumps goodGpt)

/-- Cache state after a successful metadata fetch for 11234567: the
metadata is cached and gpt_json is NULL. -/
def cachedMetaDb : DB := [⟨"11234567", some (dumps sampleData), none⟩]

/-- C1: the spec claims that with metadata cached and classification_json
unset, classify does not re-fetch metadata and attempts exactly one LLM
call.  On the code this fails: the fetched row `(None,)` is truthy, so
`json.loads(row[0])` raises TypeError before the LLM is ever invoked —
the call is never attempted and the exception escapes. -/
theorem c1_cached_metadata_crashes_before_llm :
    categorize_with_llm goodNet cachedMetaDb sampleData
      = { db := cachedMetaDb, llmCalled := false,
          res := .error (.typeError
            "the JSON object must be str, bytes or bytearray, not NoneType") } := by
  rfl

/-- C2: the spec claims no error is fatal to a submission — query_patent
returns metadata or None and categorize_with_llm returns a dict.  On the
code this fails: the TypeError from the truthy NULL-classification row
escapes categorize_with_llm, and an exception raised by requests.get
escapes query_patent. -/
theorem c2_exceptions_escape_submission :
    (categorize_with_llm goodNet cachedMetaDb sampleData).res
        = .error (.typeError
            "the JSON object must be str, bytes or bytearray, not NoneType")
    ∧ (query_patent (.exn (.requestError "connection refused")) [] "11234567").res
        = .error (.requestError "connection refused") :=
  ⟨rfl, rfl⟩

/-- C5 counterexample: on a row ("p1", metadata, classification "g"), the
REPLACE upsert does not leave classification_json untouched — afterwards
the row's gpt_json is NULL, not "g". -/
theorem c5_replace_clears_classification :
    selectGptJson [(⟨"p1", some "m", some "g"⟩ : Row)] (some "p1") = some (some "g")
    ∧ selectGptJson (replaceIntoCache [⟨"p1", some "m", some "g"⟩] "p1" "m2")
        (some "p1") = some none :=
  ⟨rfl, rfl⟩

/-- C5 amended: the metadata upsert replaces the whole row — metadata_json
becomes the new value, classification_json becomes NULL (cleared if it was
set, NULL for a fresh row), and rows under other identifiers are
untouched. -/
theorem c5_amended_replace_row (db : DB) (pn d : String) :
    selectDataJson (replaceIntoCache db pn d) pn = some (some d)
    ∧ selectGptJson (replaceIntoCache db pn d) (some pn) = some none
    ∧ ∀ q, q ≠ pn →
        List.find? (rowMatches (some q)) (replaceIntoCache db pn d)
          = List.find? (rowMatches (some q)) db := by
  refine ⟨?_, ?_, ?_⟩
  · unfold selectDataJson
    rw [replace_find_self]
    rfl
  · unfold selectGptJson
    rw [replace_find_self]
    rfl
  · intro q hq
    exact replace_find_other db pn d q hq

/-- Witness for the amended C5 at a concrete single-row cache. -/
theorem c5_amended_replace_row_witness :
    selectDataJson (replaceIntoCache [⟨"p2", some "x", some "y"⟩] "p1" "m") "p1"
        = some (some "m")
    ∧ selectGptJson (replaceIntoCache [⟨"p2", some "x", some "y"⟩] "p1" "m")
        (some "p1") = some none
    ∧ List.find? (rowMatches (some "p2"))
          (replaceIntoCache [⟨"p2", some "x", some "y"⟩] "p1" "m")
        = List.find? (rowMatches (some "p2")) [⟨"p2", some "x", some "y"⟩] :=
  ⟨(c5_amended_replace_row [⟨"p2", some "x", some "y"⟩] "p1" "m").1,
    (c5_amended_replace_row [⟨"p2", some "x", some "y"⟩] "p1" "m").2.1,
    (c5_amended_replace_row [⟨"p2", some "x", some "y"⟩] "p1" "m").2.2 "p2"
      (by decide)⟩

/-- C7: the spec claims classify-twice performs exactly one LLM call and
the second call returns the cached result.  On the code this fails: with
no cache row, the first call succeeds but its UPDATE writes nothing, so
the cache stays empty and the second call performs a second LLM call. -/
theorem c7_second_classify_calls_llm_again :
    (categorize_with_llm goodNet [] sampleData).res = .ok goodGpt
    ∧ (categorize_with_llm goodNet [] sampleData).llmCalled = true
    ∧ (categorize_with_llm goodNet [] sampleData).db = []
    ∧ (categorize_with_llm goodNet
        (categorize_with_llm goodNet [] sampleData).db sampleData).llmCalled
        = true :=
  ⟨rfl, rfl, rfl, rfl⟩

/-- A second matching record, for the two-record counterexample of C8. -/
def otherPatent : Json := .obj (.cons "patent_number" (.str "99999999") .nil)

/-- A search response with two records in its patents array. -/
def twoRecData : Json :=
  .obj (.cons "patents" (.arr (.cons samplePatent (.cons otherPatent .nil))) .nil)

/-- C8 counterexample: on a 200 response with two records, query_patent
returns the whole parsed response object, not the first record of its
patents array. -/
theorem c8_returns_full_response_not_first_record :
    (query_patent (.resp 200 (dumps twoRecData)) [] "11234567").res
        = .ok (some twoRecData)
    ∧ twoRecData ≠ samplePatent :=
  ⟨rfl, by decide⟩

/-- C8 amended: with no cached metadata, on a 200 response with a
non-empty patents array, query_patent persists the raw response via the
REPLACE upsert and returns the full parsed response (whose patents array
holds the matching records; the caller extracts the first one). -/
theorem c8_success_persists_and_returns_response (db : DB) (pn : String)
    (body : String) (kvs : JsonObj) (x : Json) (xs : JsonList)
    (hmiss : selectDataJson db pn = none)
    (hd : loadsStr body = .ok (.obj kvs))
    (hp : pyLookup kvs "patents" = some (.arr (.cons x xs))) :
    query_patent (.resp 200 body) db pn
      = { db := replaceIntoCache db pn (dumps (.obj kvs)), apiCalled := true,
          res := .ok (some (.obj kvs)) } := by
  simp only [query_patent, hmiss, if_pos rfl, hd, pyContains, hp, Option.isSome_some,
    if_true, pyIndexKey, pyTruthy]

/-- Witness for the amended C8 at the concrete sample response. -/
theorem c8_success_persists_and_returns_response_witness :
    query_patent (.resp 200 (dumps sampleData)) [] "11234567"
      = { db := replaceIntoCache [] "11234567" (dumps sampleData),
          apiCalled := true, res := .ok (some sampleData) } :=
  c8_success_persists_and_returns_response [] "11234567" (dumps sampleData)
    (.cons "patents" (.arr (.cons samplePatent .nil)) .nil) samplePatent .nil
    rfl (by rw [loadsStr, parseJson_dumps]; rfl) rfl

/-- C9: the variant-B LLM call returns the response's message content
field on HTTP 200, and on any other status raises an Exception whose
message carries both the status code and the response body text. -/
theorem c9_variantB_content_or_error (status : Nat) (body prompt : String) :
    (∀ content, extractContent body = .ok content → status = 200 →
      call_together_llama3 (.resp status body) prompt = .ok content)
    ∧ (status ≠ 200 →
      call_together_llama3 (.resp status body) prompt
        = .error (.apiError
            ("Together API Error: " ++ toString status ++ ", " ++ body))) := by
  constructor
  · intro content hx h200
    subst h200
    simp [call_together_llama3, hx]
  · intro hne
    simp [call_together_llama3, if_neg hne]

/-- Witness for C9: a 200 response yields its content field; a 500
response raises the formatted error. -/
theorem c9_variantB_content_or_error_witness :
    call_together_llama3 (.resp 200 (dumps (llmRespWith "hello"))) "p"
        = .ok (.str "hello")
    ∧ call_together_llama3 (.resp 500 "oops") "p"
        = .error (.apiError "Together API Error: 500, oops") :=
  ⟨(c9_variantB_content_or_error 200 (dumps (llmRespWith "hello")) "p").1
      (.str "hello") rfl rfl,
    (c9_variantB_content_or_error 500 "oops" "p").2 (by decide)⟩

/-- A well-formed classification that legitimately carries an extra
"error" field alongside its classification fields. -/
def errorKeyGpt : Json :=
  .obj (.cons "error" (.str "none")
    (.cons "technology_areas" (.arr (.cons (.str "Mechanical") .nil))
      (.cons "reasoning" (.str "legitimate fields") .nil)))

/-- C10: classifier failure is encoded as a dict containing the key
"error", and the UI treats any result containing that key as a failure: a
successful classification that legitimately carries an "error" field is
rendered as an error banner instead of its classification fields. -/
theorem c10_error_key_renders_banner :
    (categorize_with_llm (llmNetWith (dumps errorKeyGpt)) [] sampleData).res
        = .ok errorKeyGpt
    ∧ render_gpt_result errorKeyGpt = .ok (.errorBanner (.str "none"))
    ∧ render_gpt_result (errorDict (.apiError "boom"))
        = .ok (.errorBanner (.str "boom")) :=
  ⟨rfl, rfl, rfl⟩

/-- C3: when the classifier reaches the LLM (no row matches the gpt_json
probe) and the LLM call fails or its response text is not valid JSON,
categorize_with_llm returns the `{"error": str(e)}` dict carrying the
error's description and leaves the cache unchanged (no write, so no
classification_json is ever set on the failure path). -/
theorem c3_failure_returns_error_dict_no_write
    (net : NetOutcome) (db : DB) (patent_data patent : Json)
    (prompt : String) (p : Option String) (e : PyExc)
    (h1 : firstPatent patent_data = .ok patent)
    (h2 : patentFields patent = .ok (prompt, p))
    (h3 : selectGptJson db p = none)
    (h4 : llmFetchParse net prompt = .error e) :
    categorize_with_llm net db patent_data
      = { db := db, llmCalled := true, res := .ok (errorDict e) } := by
  simp only [categorize_with_llm, h1, h2, h3, h4]

/-- Witness for C3: the LLM answers 200 with the body text
"Sure! not json" (a non-JSON-prefixed response); classify returns the
error dict and the empty cache stays empty. -/
theorem c3_failure_returns_error_dict_no_write_witness :
    categorize_with_llm (llmNetWith "Sure! not json") [] sampleData
      = { db := [], llmCalled := true,
          res := .ok (errorDict
            (.jsonDecodeError "Expecting value: line 1 column 1 (char 0)")) } :=
  c3_failure_returns_error_dict_no_write (llmNetWith "Sure! not json") [] sampleData
    samplePatent (promptFor (.str "Widget Fastener") (.str "A fastening widget"))
    (some "11234567")
    (.jsonDecodeError "Expecting value: line 1 column 1 (char 0)")
    rfl rfl rfl rfl

/-- C4: with no cached metadata, a non-200 search response — or a 200
response whose patents array is empty — makes query_patent return None
(NotFound) with no cache write: the cache state is returned unchanged. -/
theorem c4_notfound_no_cache_write (db : DB) (pn : String) (status : Nat)
    (body : String) (kvs : JsonObj)
    (hmiss : selectDataJson db pn = none)
    (hnf : status ≠ 200
      ∨ (loadsStr body = .ok (.obj kvs)
          ∧ pyLookup kvs "patents" = some (.arr .nil))) :
    query_patent (.resp status body) db pn
      = { db := db, apiCalled := true, res := .ok none } := by
  by_cases hs : status = 200
  · subst hs
    rcases hnf with h | ⟨hd, hp⟩
    · exact absurd rfl h
    · simp only [query_patent, hmiss, if_pos rfl, hd, pyContains, hp,
        Option.isSome_some, if_true, pyIndexKey, pyTruthy]
      rfl
  · simp only [query_patent, hmiss, if_neg hs]

/-- Witness for C4, used at both a 404 response and a 200 response with an
empty patents array. -/
theorem c4_notfound_no_cache_write_witness :
    query_patent (.resp 404 "gone") [] "11234567"
      = { db := [], apiCalled := true, res := .ok none }
    ∧ query_patent (.resp 200 (dumps (.obj (.cons "patents" (.arr .nil) .nil))))
        [] "11234567"
      = { db := [], apiCalled := true, res := .ok none } :=
  ⟨c4_notfound_no_cache_write [] "11234567" 404 "gone" .nil rfl
      (Or.inl (by decide)),
    c4_notfound_no_cache_write [] "11234567" 200
      (dumps (.obj (.cons "patents" (.arr .nil) .nil)))
      (.cons "patents" (.arr .nil) .nil) rfl
      (Or.inr ⟨by rw [loadsStr, parseJson_dumps], rfl⟩)⟩

/-- C6: if the first metadata fetch for an identifier succeeds with
metadata m, a second fetch for the same identifier against the resulting
cache issues no API call (pure cache hit, for any network outcome) and
returns the identical metadata m. -/
theorem c6_metadata_fetch_idempotent (net net2 : NetOutcome) (db : DB)
    (pn : String) (m : Json)
    (hfirst : (query_patent net db pn).res = .ok (some m)) :
    (query_patent net2 (query_patent net db pn).db pn).apiCalled = false
    ∧ (query_patent net2 (query_patent net db pn).db pn).res = .ok (some m) := by
  cases hsel : selectDataJson db pn with
  | some v =>
    have hdb : (query_patent net db pn).db = db := by
      simp [query_patent, hsel]
    have hres : (query_patent net db pn).res = (json_loads_col v).map some := by
      simp [query_patent, hsel]
    rw [hres] at hfirst
    rw [hdb]
    refine ⟨by simp [query_patent, hsel], ?_⟩
    have h2 : (query_patent net2 db pn).res = (json_loads_col v).map some := by
      simp [query_patent, hsel]
    rw [h2, hfirst]
  | none =>
    cases net with
    | exn e =>
      simp only [query_patent, hsel] at hfirst
      exact absurd hfirst (by simp)
    | resp status body =>
      by_cases hs : status = 200
      · subst hs
        simp only [query_patent, hsel, reduceIte] at hfirst
        cases hld : loadsStr body with
        | error e =>
          simp only [hld] at hfirst
          exact absurd hfirst (by simp)
        | ok data =>
          simp only [hld] at hfirst
          cases hc : pyContains "patents" data with
          | error e =>
            simp only [hc] at hfirst
            exact absurd hfirst (by simp)
          | ok b =>
            simp only [hc] at hfirst
            cases b with
            | false => simp at hfirst
            | true =>
              simp only [if_true] at hfirst
              cases hik : pyIndexKey data "patents" with
              | error e =>
                simp only [hik] at hfirst
                exact absurd hfirst (by simp)
              | ok pts =>
                simp only [hik] at hfirst
                by_cases ht : pyTruthy pts = true
                · simp only [if_pos ht] at hfirst
                  have hdm : data = m := by simpa using hfirst
                  subst hdm
                  have hdb : (query_patent (.resp 200 body) db pn).db
                      = replaceIntoCache db pn (dumps data) := by
                    simp [query_patent, hsel, hld, hc, hik, ht]
                  rw [hdb]
                  have hsel2 : selectDataJson (replaceIntoCache db pn (dumps data)) pn
                      = some (some (dumps data)) := by
                    unfold selectDataJson
                    rw [replace_find_self]
                    rfl
                  have hload : json_loads_col (some (dumps data)) = .ok data := by
                    rw [json_loads_col, loadsStr, parseJson_dumps]
                  refine ⟨by simp [query_patent, hsel2], ?_⟩
                  have h2 : (query_patent net2 (replaceIntoCache db pn (dumps data)) pn).res
                      = (json_loads_col (some (dumps data))).map some := by
                    simp [query_patent, hsel2]
                  rw [h2, hload]
                  rfl
                · simp only [if_neg ht] at hfirst
                  simp at hfirst
      · simp only [query_patent, hsel, if_neg hs] at hfirst
        exact absurd hfirst (by simp)

/-- Witness for C6 at a concrete search response: the first fetch hits the
API, the second is answered from the cache with identical metadata even
though the network would now fail. -/
theorem c6_metadata_fetch_idempotent_witness :
    (query_patent (.exn (.requestError "down"))
        (query_patent (.resp 200 (dumps sampleData)) [] "11234567").db
        "11234567").apiCalled = false
    ∧ (query_patent (.exn (.requestError "down"))
        (query_patent (.resp 200 (dumps sampleData)) [] "11234567").db
        "11234567").res = .ok (some sampleData) :=
  c6_metadata_fetch_idempotent (.resp 200 (dumps sampleData))
    (.exn (.requestError "down")) [] "11234567" sampleData rfl
